import Mathlib

/-!
Verification of the Token-Picker script (`src/main.py`).

Shallow embedding conventions:
* Python floats are modelled as rationals (`ℚ`).
* Dates are modelled as day numbers: `Token.date_added` is the parsed listing
  date (`datetime.strptime(token["date_added"].split('T')[0], '%Y-%m-%d')`)
  as an integer day count, `none` when the field is missing or unparseable;
  the current time `datetime.now()` is a parameter `today : ℤ`, so
  `age_days = today - d`.
* Dictionary fields read with `.get(key, default)` are modelled with `Option`
  plus `Option.getD`; fields read with `token[key]` (which raise `KeyError`
  when absent) are required fields of an `Option`-wrapped structure, so the
  whole structure being `none` models the raising access.
* Each Python function body wrapped in `try/except` is modelled as an
  `Except String` computation (`...Body`), and the Python function itself is
  the total wrapper that returns the except-branch default on error.
* The network call in `get_all_tokens` is modelled by passing the outcome of
  the HTTP request/JSON decoding as an `Except String (List Token)` argument.
-/

namespace TokenPicker

/-- Risk tiers selected in `main` (`risk_options`). -/
inductive Risk where
  | low
  | medium
  | high
deriving Repr, DecidableEq

/-- The three volatility timeframes `"1h"`, `"24h"`, `"7d"`. -/
inductive Timeframe where
  | t1h
  | t24h
  | t7d
deriving Repr, DecidableEq

/-- A truthy `platform` dictionary; keys read via `.get(_, "")`. -/
structure Platform where
  name : String
  symbol : String
deriving Repr, DecidableEq

/-- The `token["quote"]["USD"]` sub-dictionary. Fields that the script reads
with a raising `[...]` access are required; the two fields only ever read via
`.get(_, 0)` are `Option`s. -/
structure Usd where
  price : ℚ
  market_cap : ℚ
  volume_24h : ℚ
  percent_change_1h : Option ℚ
  percent_change_24h : ℚ
  percent_change_7d : ℚ
  percent_change_30d : Option ℚ
deriving Repr, DecidableEq

/-- One listing entry returned by the CoinMarketCap API.
`quote = none` models a token whose `["quote"]["USD"]` access raises;
`platform = none` models a missing, `None` or empty (falsy) platform. -/
structure Token where
  name : String
  symbol : String
  tags : List String
  platform : Option Platform
  date_added : Option ℤ
  num_market_pairs : Option ℕ
  cmc_rank : Option ℕ
  quote : Option Usd
deriving Repr, DecidableEq

/-- The dictionary returned by `get_investment_rating`. -/
structure Rating where
  strengths : List String
  weaknesses : List String
  opportunities : List String
  risks : List String
deriving Repr, DecidableEq

/-- The `analyzed_token` dictionary built inside `analyze_tokens`.
`cmc_rank = none` corresponds to the `"N/A"` default; `date_added` is the
day number of the `split("T")[0]` date string. -/
structure AnalyzedToken where
  name : String
  symbol : String
  market_cap : ℚ
  price : ℚ
  volume_24h : ℚ
  percent_change_24h : ℚ
  percent_change_7d : ℚ
  volume_to_mcap : ℚ
  quality_score : ℚ
  cmc_rank : Option ℕ
  date_added : ℤ
  tags : List String
  analysis : Rating
deriving Repr, DecidableEq

/-- Blockchains offered by `main` (`chain_options`). -/
inductive Chain where
  | ethereum
  | solana
deriving Repr, DecidableEq

/-! ### Configuration constants from `TokenAnalyzer.__init__` -/

/-- `self.risk_ranges`: market-cap range (min, max) per risk tier. -/
def risk_ranges : Risk → ℚ × ℚ
  | .low => (100000000, 1000000000)
  | .medium => (25000000, 100000000)
  | .high => (1000000, 25000000)

/-- `self.min_volume`: minimum daily volume per risk tier. -/
def min_volume : Risk → ℚ
  | .low => 1000000
  | .medium => 500000
  | .high => 100000

/-- `self.volume_mcap_limits`: volume to market-cap limits per risk tier. -/
def volume_mcap_limits : Risk → ℚ × ℚ
  | .low => (1/100, 20/100)
  | .medium => (2/100, 30/100)
  | .high => (5/100, 40/100)

/-- `self.min_age`: minimum age requirement in days per risk tier. -/
def min_age : Risk → ℤ
  | .low => 180
  | .medium => 90
  | .high => 30

/-- `self.max_volatility`: maximum absolute percent change per timeframe. -/
def max_volatility : Risk → Timeframe → ℚ
  | .low, .t1h => 3
  | .low, .t24h => 8
  | .low, .t7d => 15
  | .medium, .t1h => 5
  | .medium, .t24h => 15
  | .medium, .t7d => 30
  | .high, .t1h => 8
  | .high, .t24h => 25
  | .high, .t7d => 50

/-- `self.min_quality_score`: minimum quality score per risk tier. -/
def min_quality_score : Risk → ℚ
  | .low => 70
  | .medium => 60
  | .high => 45

/-- `min_pairs` local table in `calculate_quality_score`. -/
def min_pairs : Risk → ℕ
  | .low => 15
  | .medium => 8
  | .high => 3

/-- Python's `str.lower()`, modelled by lowering each character. -/
def strLower (s : String) : String := ⟨s.data.map Char.toLower⟩

/-- Auxiliary for the substring test: does `pat` start the list `l`? -/
def strStartsWith : List Char → List Char → Bool
  | [], _ => true
  | _ :: _, [] => false
  | a :: as, b :: bs => a == b && strStartsWith as bs

/-- Auxiliary for the substring test: does `pat` occur inside `l`? -/
def strHasSub (pat : List Char) : List Char → Bool
  | [] => pat.isEmpty
  | c :: tl => strStartsWith pat (c :: tl) || strHasSub pat tl

/-- Python's substring test `pat in hay` on strings. -/
def strContains (hay pat : String) : Bool := strHasSub pat.data hay.data

/-! ### `TokenAnalyzer.get_all_tokens` -/

/-- Body of `TokenAnalyzer.get_all_tokens`: the HTTP request, status check and
JSON decoding are modelled by their combined outcome `response`; the
`try/except` returns `[]` on any error. -/
def get_all_tokens (response : Except String (List Token)) : List Token :=
  match response with
  | .ok data => data
  | .error _ => []

/-! ### `TokenAnalyzer.calculate_quality_score` -/

/-- The `try`-block of `calculate_quality_score`. Score accumulation follows
the source order: market cap, volume, price stability, exchange listings, age.
Errors model the exceptions the Python body can raise: a missing USD quote
(`KeyError`), division by a zero market cap (`ZeroDivisionError`), and a
missing or unparseable `date_added` (`KeyError`/`ValueError`). -/
def scoreBody (today : ℤ) (token : Token) (risk : Risk) : Except String ℚ :=
  match token.quote with
  | none => .error "KeyError: USD quote"
  | some usd_data =>
    let score : ℚ := 0
    let market_cap := usd_data.market_cap
    let max_cap := (risk_ranges risk).2
    let score := score + min 20 ((market_cap / max_cap) * 20)
    if market_cap = 0 then .error "ZeroDivisionError: float division by zero"
    else
      let volume_mcap := usd_data.volume_24h / market_cap
      let ideal := ((volume_mcap_limits risk).1 + (volume_mcap_limits risk).2) / 2
      let volume_score := 20 * (1 - |volume_mcap - ideal| / ideal)
      let score := score + max 0 volume_score
      let stability_score : ℚ := 20
      let stability_score :=
        if |usd_data.percent_change_24h| > max_volatility risk Timeframe.t24h
        then stability_score * (1/2) else stability_score
      let stability_score :=
        if |usd_data.percent_change_7d| > max_volatility risk Timeframe.t7d
        then stability_score * (1/2) else stability_score
      let score := score + stability_score
      let pairs := token.num_market_pairs.getD 0
      let score := score + min 20 (((pairs : ℚ) / ((min_pairs risk : ℕ) : ℚ)) * 20)
      match token.date_added with
      | none => .error "ValueError: invalid date_added"
      | some d =>
        let age_days := today - d
        let score := score + min 20 (((age_days : ℚ) / ((min_age risk : ℤ) : ℚ)) * 20)
        .ok score

/-- `TokenAnalyzer.calculate_quality_score`: returns `0` when the body raises. -/
def calculate_quality_score (today : ℤ) (token : Token) (risk : Risk) : ℚ :=
  match scoreBody today token risk with
  | .ok s => s
  | .error _ => 0

/-! ### `TokenAnalyzer.initial_token_filter` -/

/-- The `try`-block of `initial_token_filter`. The reason strings keep the
static text of the source messages; the interpolated numbers are elided.
The 24h/7d volatility reads use `.get(_, 0)` in the source, which on the
required model fields is just the field itself. -/
def filterBody (today : ℤ) (token : Token) (risk : Risk) :
    Except String (Bool × String) :=
  match token.quote with
  | none => .error "KeyError: USD quote"
  | some usd_data =>
    if "stablecoin" ∈ token.tags.map strLower then
      .ok (false, "Token identified as a stablecoin.")
    else if ¬((risk_ranges risk).1 ≤ usd_data.market_cap ∧
              usd_data.market_cap ≤ (risk_ranges risk).2) then
      .ok (false, "Market cap outside range")
    else if usd_data.volume_24h < min_volume risk then
      .ok (false, "Volume below minimum")
    else
      match token.date_added with
      | none => .error "ValueError: invalid date_added"
      | some d =>
        if today - d < min_age risk then
          .ok (false, "Age below minimum")
        else if |usd_data.percent_change_1h.getD 0| > max_volatility risk Timeframe.t1h then
          .ok (false, "1h change exceeds limit")
        else if |usd_data.percent_change_24h| > max_volatility risk Timeframe.t24h then
          .ok (false, "24h change exceeds limit")
        else if |usd_data.percent_change_7d| > max_volatility risk Timeframe.t7d then
          .ok (false, "7d change exceeds limit")
        else
          .ok (true, "Passed initial filter")

/-- `TokenAnalyzer.initial_token_filter`: on an exception the `except` arm
returns `(False, f"Error in filtering: {e}")`. -/
def initial_token_filter (today : ℤ) (token : Token) (risk : Risk) : Bool × String :=
  match filterBody today token risk with
  | .ok r => r
  | .error e => (false, "Error in filtering: " ++ e)

/-! ### `TokenAnalyzer.get_investment_rating` -/

/-- The utility tag whitelist in `get_investment_rating`. -/
def utility_tags : List String := ["defi", "nft", "gaming", "layer-2", "governance"]

/-- Rating with four empty lists, returned by the `except` arm. -/
def emptyRating : Rating := ⟨[], [], [], []⟩

/-- The `try`-block of `get_investment_rating`. List entries keep the static
part of the source messages; interpolated numbers are elided. -/
def ratingBody (today : ℤ) (token : Token) (risk : Risk) : Except String Rating :=
  match token.quote with
  | none => .error "KeyError: USD quote"
  | some usd_data =>
    if usd_data.market_cap = 0 then .error "ZeroDivisionError: float division by zero"
    else
      let volume_mcap := usd_data.volume_24h / usd_data.market_cap
      match token.date_added with
      | none => .error "ValueError: invalid date_added"
      | some d =>
        let age_days := today - d
        let rankS := if token.cmc_rank.getD 1000 ≤ 300
          then ["Strong market position"] else []
        let ageS := if age_days > 365 then ["Well-established"] else []
        let volS := if volume_mcap ≥ (volume_mcap_limits risk).1
          then ["Healthy trading volume"] else []
        let volW := if volume_mcap ≥ (volume_mcap_limits risk).1
          then [] else ["Lower than ideal trading volume"]
        let opp := if usd_data.percent_change_7d > 0
          then ["Positive 7-day trend"] else []
        let rsk := if usd_data.percent_change_7d > 0
          then [] else ["Negative 7-day trend"]
        let token_utilities :=
          (token.tags.map strLower).filter (fun t => utility_tags.contains t)
        let utilS := if token_utilities.isEmpty then [] else ["Clear utility"]
        let utilW := if token_utilities.isEmpty then ["Limited clear utility cases"] else []
        .ok ⟨rankS ++ ageS ++ volS ++ utilS, volW ++ utilW, opp, rsk⟩

/-- `TokenAnalyzer.get_investment_rating`: empty rating when the body raises. -/
def get_investment_rating (today : ℤ) (token : Token) (risk : Risk) : Rating :=
  match ratingBody today token risk with
  | .ok r => r
  | .error _ => emptyRating

/-! ### `is_stablecoin` -/

/-- Name/symbol substrings that mark a stablecoin in `is_stablecoin`. -/
def stable_indicators : List String :=
  ["usd", "eur", "gbp", "usdt", "usdc", "dai", "busd", "tusd"]

/-- The `try`-block of `is_stablecoin`. The tag, name and symbol checks happen
before the quote access, so they return even when the quote is missing. -/
def stablecoinBody (token : Token) : Except String Bool :=
  let tags := token.tags.map strLower
  if ["stablecoin", "stablecoins"].any (fun tag => tags.contains tag) then .ok true
  else
    let name_lower := strLower token.name
    let symbol_lower := strLower token.symbol
    if stable_indicators.any (fun ind => strContains name_lower ind) then .ok true
    else if stable_indicators.any (fun ind => strContains symbol_lower ind) then .ok true
    else
      match token.quote with
      | none => .error "KeyError: USD quote"
      | some usd =>
        if 95/100 ≤ usd.price ∧ usd.price ≤ 105/100 then
          if |usd.percent_change_30d.getD 0| < 5 then .ok true
          else .ok false
        else .ok false

/-- `is_stablecoin`: returns `False` when the body raises. -/
def is_stablecoin (token : Token) : Bool :=
  match stablecoinBody token with
  | .ok b => b
  | .error _ => false

/-! ### `TokenAnalyzer.analyze_tokens` -/

/-- Building the `analyzed_token` dictionary inside the per-token `try` of
`analyze_tokens`. Field expressions are evaluated in source order; the
division producing `volume_to_mcap` and the `date_added` split are the
raising operations. -/
def buildBody (today : ℤ) (token : Token) (risk : Risk) (quality_score : ℚ) :
    Except String AnalyzedToken :=
  match token.quote with
  | none => .error "KeyError: USD quote"
  | some usd =>
    if usd.market_cap = 0 then .error "ZeroDivisionError: float division by zero"
    else
      match token.date_added with
      | none => .error "ValueError: invalid date_added"
      | some d =>
        .ok { name := token.name
              symbol := token.symbol
              market_cap := usd.market_cap
              price := usd.price
              volume_24h := usd.volume_24h
              percent_change_24h := usd.percent_change_24h
              percent_change_7d := usd.percent_change_7d
              volume_to_mcap := usd.volume_24h / usd.market_cap
              quality_score := quality_score
              cmc_rank := token.cmc_rank
              date_added := d
              tags := token.tags
              analysis := get_investment_rating today token risk }

/-- One iteration of the loop in `analyze_tokens`: `none` models `continue`
(initial filter failed, quality score below minimum, or an exception caught
by the per-token `except`); the rejection counters are not modelled. -/
def analyzeToken (today : ℤ) (token : Token) (risk : Risk) : Option AnalyzedToken :=
  let fr := initial_token_filter today token risk
  if fr.1 then
    let quality_score := calculate_quality_score today token risk
    if quality_score < min_quality_score risk then none
    else
      match buildBody today token risk quality_score with
      | .ok a => some a
      | .error _ => none
  else none

/-- The comparison `sorted(analyzed_tokens, key=lambda x: x["quality_score"],
reverse=True)` sorts by: `a` before `b` when `b`'s score is at most `a`'s. -/
def scoreDescLe (a b : AnalyzedToken) : Bool :=
  decide (b.quality_score ≤ a.quality_score)

/-- `TokenAnalyzer.analyze_tokens`: filter each token, keep the survivors'
analyzed records, and return them sorted by descending quality score. -/
def analyze_tokens (today : ℤ) (tokens : List Token) (risk : Risk) :
    List AnalyzedToken :=
  (tokens.filterMap (fun token => analyzeToken today token risk)).mergeSort scoreDescLe

/-! ### `main` -/

/-- Chain membership test from the filtering loop of `main`: native symbol,
platform name/symbol, or a chain tag. -/
def tokenMatchesChain (chain : Chain) (token : Token) : Bool :=
  match chain with
  | .ethereum =>
    strLower token.symbol == "eth" ||
    (match token.platform with
     | some p => strLower p.name == "ethereum" || strLower p.symbol == "eth"
     | none => false) ||
    ["ethereum", "erc-20", "erc20", "eth"].any
      (fun ind => (token.tags.map strLower).contains ind)
  | .solana =>
    strLower token.symbol == "sol" ||
    (match token.platform with
     | some p => strLower p.name == "solana" || strLower p.symbol == "sol"
     | none => false) ||
    ["solana", "spl", "sol"].any
      (fun ind => (token.tags.map strLower).contains ind)

/-- The chain-filtering loop of `main`: a token is kept exactly when it is not
a stablecoin and one of the chain checks appends it; every other path
(including the caught per-token exceptions) is `continue`. -/
def chainFilter (chain : Chain) (tokens : List Token) : List Token :=
  tokens.filter (fun token => !is_stablecoin token && tokenMatchesChain chain token)

/-- The analyzed shortlist `main` computes for a fetched list:
chain filtering followed by `analyze_tokens`. -/
def mainAnalyzed (today : ℤ) (tokens : List Token) (chain : Chain) (risk : Risk) :
    List AnalyzedToken :=
  analyze_tokens today (chainFilter chain tokens) risk

/-- Pipeline stages of `main`, in the order the script performs them. -/
inductive Stage where
  | fetch
  | filterStage
  | score
  | sortStage
  | report
deriving Repr, DecidableEq

/-- Outcome of a run of `main` after the chain and risk prompts. -/
inductive MainResult where
  | fetchFailed
  | noChainTokens
  | noMatch
  | report (printed : List AnalyzedToken) (logged : List AnalyzedToken)
deriving Repr, DecidableEq

/-- `main` after the interactive prompts: fetch, chain-filter, analyze
(score then sort), then print/log the first 10 analyzed tokens. The second
component records which pipeline stages the run performed, in order.
`fetchFailed` is the `"Failed to fetch token data"` early return,
`noChainTokens` the `"No tokens found for {chain}"` early return, and
`noMatch` the `"No tokens found matching criteria"` branch. -/
def mainRun (today : ℤ) (response : Except String (List Token))
    (chain : Chain) (risk : Risk) : MainResult × List Stage :=
  let all_tokens := get_all_tokens response
  if all_tokens.isEmpty then (.fetchFailed, [.fetch])
  else
    let filtered_tokens := chainFilter chain all_tokens
    if filtered_tokens.isEmpty then (.noChainTokens, [.fetch, .filterStage])
    else
      let analyzed_tokens := analyze_tokens today filtered_tokens risk
      if analyzed_tokens.isEmpty then
        (.noMatch, [.fetch, .filterStage, .score, .sortStage])
      else
        (.report (analyzed_tokens.take 10) (analyzed_tokens.take 10),
         [.fetch, .filterStage, .score, .sortStage, .report])

/-- A whole program run together with the state persisted on disk by earlier
runs (`token_analysis.log`, previous `token_recommendations_*.txt` files).
The script opens its output files in write mode and never reads any file, so
the run's result is a function of the fetched data, the selections and the
current time alone; the `persisted` argument is therefore unused. -/
def runProgram (persisted : List String) (today : ℤ)
    (response : Except String (List Token)) (chain : Chain) (risk : Risk) :
    MainResult × List Stage :=
  mainRun today response chain risk

/-! ### Component scores of `calculate_quality_score` -/

/-- Market Cap Score (0-20): `min(20, (market_cap / max_cap) * 20)`. -/
def mcapScore (market_cap : ℚ) (risk : Risk) : ℚ :=
  min 20 ((market_cap / (risk_ranges risk).2) * 20)

/-- Volume Score (0-20): `max(0, 20 * (1 - abs(ratio - ideal)/ideal))`. -/
def volumeScore (volume_24h market_cap : ℚ) (risk : Risk) : ℚ :=
  let ideal := ((volume_mcap_limits risk).1 + (volume_mcap_limits risk).2) / 2
  max 0 (20 * (1 - |volume_24h / market_cap - ideal| / ideal))

/-- Price Stability Score (0-20): starts at 20, halved for each of the 24h and
7d changes exceeding the tier's volatility limit. -/
def stabilityScore (pc24 pc7 : ℚ) (risk : Risk) : ℚ :=
  let s : ℚ := 20
  let s := if |pc24| > max_volatility risk Timeframe.t24h then s * (1/2) else s
  if |pc7| > max_volatility risk Timeframe.t7d then s * (1/2) else s

/-- Exchange Listings Score (0-20): `min(20, (pairs / min_pairs) * 20)`. -/
def pairsScore (pairs : ℕ) (risk : Risk) : ℚ :=
  min 20 (((pairs : ℚ) / ((min_pairs risk : ℕ) : ℚ)) * 20)

/-- Age Score (0-20): `min(20, (age_days / min_age) * 20)`. -/
def ageScore (age_days : ℤ) (risk : Risk) : ℚ :=
  min 20 (((age_days : ℚ) / ((min_age risk : ℤ) : ℚ)) * 20)

/-! ### Concrete fixtures used by the witness theorems -/

/-- A well-formed USD quote used as a test fixture. -/
def wUsd : Usd :=
  { price := 100, market_cap := 10000000, volume_24h := 2250000,
    percent_change_1h := some 0, percent_change_24h := 0,
    percent_change_7d := 1, percent_change_30d := some 0 }

/-- A token that passes the chain filter, the initial filter and the quality
threshold for the high-risk tier at `today = 1000`. -/
def wTok : Token :=
  { name := "Ether", symbol := "ETH", tags := [], platform := none,
    date_added := some 0, num_market_pairs := some 10, cmc_rank := some 2,
    quote := some wUsd }

/-- The analyzed record the pipeline produces for `wTok` at `today = 1000`,
high risk: its quality score is 8 + 20 + 20 + 20 + 20 = 88. -/
def wAnalyzed : AnalyzedToken :=
  { name := "Ether", symbol := "ETH", market_cap := 10000000, price := 100,
    volume_24h := 2250000, percent_change_24h := 0, percent_change_7d := 1,
    volume_to_mcap := 9/40, quality_score := 88, cmc_rank := some 2,
    date_added := 0, tags := [],
    analysis :=
      { strengths := ["Strong market position", "Well-established",
                      "Healthy trading volume"],
        weaknesses := ["Limited clear utility cases"],
        opportunities := ["Positive 7-day trend"],
        risks := [] } }

/-- A token whose USD quote is missing, so every quote access raises. -/
def bTok : Token :=
  { name := "Broken", symbol := "BRK", tags := [], platform := none,
    date_added := none, num_market_pairs := none, cmc_rank := none,
    quote := none }

/-- A token whose name contains the indicator substring `"usd"`. -/
def sTok : Token :=
  { name := "MoonUSD", symbol := "MUSD", tags := ["erc-20"], platform := none,
    date_added := some 0, num_market_pairs := some 10, cmc_rank := some 500,
    quote := some wUsd }

/-! ### Helper lemmas -/

/-- Passing `filterBody` forces every threshold of the initial filter. -/
lemma filterBody_ok_true {today : ℤ} {t : Token} {risk : Risk} {msg : String}
    (h : filterBody today t risk = .ok (true, msg)) :
    ∃ usd d, t.quote = some usd ∧ t.date_added = some d ∧
      "stablecoin" ∉ t.tags.map strLower ∧
      (risk_ranges risk).1 ≤ usd.market_cap ∧
      usd.market_cap ≤ (risk_ranges risk).2 ∧
      min_volume risk ≤ usd.volume_24h ∧
      min_age risk ≤ today - d ∧
      |usd.percent_change_1h.getD 0| ≤ max_volatility risk Timeframe.t1h ∧
      |usd.percent_change_24h| ≤ max_volatility risk Timeframe.t24h ∧
      |usd.percent_change_7d| ≤ max_volatility risk Timeframe.t7d := by
  unfold filterBody at h
  split at h
  · exact absurd h (by simp)
  next usd hq =>
    split at h
    · simp at h
    next hstab =>
      split at h
      · simp at h
      next hcap =>
        split at h
        · simp at h
        next hvol =>
          split at h
          · exact absurd h (by simp)
          next d hd =>
            split at h
            · simp at h
            next hage =>
              split at h
              · simp at h
              next h1h =>
                split at h
                · simp at h
                next h24 =>
                  split at h
                  · simp at h
                  next h7 =>
                    push_neg at hcap
                    exact ⟨usd, d, hq, hd, hstab, hcap.1, hcap.2,
                      not_lt.mp hvol, not_lt.mp hage,
                      not_lt.mp h1h, not_lt.mp h24, not_lt.mp h7⟩

/-- A passing `initial_token_filter` comes from a passing `filterBody`. -/
lemma initial_token_filter_fst_true {today : ℤ} {t : Token} {risk : Risk}
    (h : (initial_token_filter today t risk).1 = true) :
    ∃ msg, filterBody today t risk = .ok (true, msg) := by
  unfold initial_token_filter at h
  split at h
  next r heq =>
    exact ⟨r.2, by rw [heq, ← h]⟩
  next e heq => simp at h

/-- `buildBody` copies the quality score it is given into the record. -/
lemma buildBody_quality {today : ℤ} {t : Token} {risk : Risk} {q : ℚ}
    {a : AnalyzedToken} (h : buildBody today t risk q = .ok a) :
    a.quality_score = q := by
  unfold buildBody at h
  split at h
  · exact absurd h (by simp)
  next usd hq =>
    split at h
    · exact absurd h (by simp)
    · split at h
      · exact absurd h (by simp)
      next d hd =>
        cases h
        rfl

/-- Inverting one loop iteration of `analyze_tokens`. -/
lemma analyzeToken_eq_some {today : ℤ} {t : Token} {risk : Risk}
    {a : AnalyzedToken} (h : analyzeToken today t risk = some a) :
    (initial_token_filter today t risk).1 = true ∧
    min_quality_score risk ≤ calculate_quality_score today t risk ∧
    a.quality_score = calculate_quality_score today t risk := by
  unfold analyzeToken at h
  dsimp only at h
  split at h
  next hpass =>
    split at h
    · exact absurd h (by simp)
    next hqs =>
      split at h
      next a' hbuild =>
        cases h
        exact ⟨hpass, not_lt.mp hqs, buildBody_quality hbuild⟩
      next e hbuild => exact absurd h (by simp)
  next hpass => exact absurd h (by simp)

/-- Membership in the output of `analyze_tokens` is membership in the
pre-sorting filtered list. -/
lemma mem_analyze_tokens {today : ℤ} {tokens : List Token} {risk : Risk}
    {a : AnalyzedToken} :
    a ∈ analyze_tokens today tokens risk ↔
      ∃ t ∈ tokens, analyzeToken today t risk = some a := by
  unfold analyze_tokens
  rw [List.mem_mergeSort, List.mem_filterMap]

/-- Membership in the chain-filtered list. -/
lemma mem_chainFilter {chain : Chain} {tokens : List Token} {t : Token} :
    t ∈ chainFilter chain tokens ↔
      t ∈ tokens ∧ is_stablecoin t = false ∧ tokenMatchesChain chain t = true := by
  unfold chainFilter
  rw [List.mem_filter]
  simp [and_assoc]

/-- The score the wrapper returns, decomposed into the five components, when
none of the body's exceptions fire. -/
lemma score_decomp (today : ℤ) (risk : Risk) {t : Token} {usd : Usd} {d : ℤ}
    (hq : t.quote = some usd) (hmc : usd.market_cap ≠ 0)
    (hd : t.date_added = some d) :
    calculate_quality_score today t risk =
      mcapScore usd.market_cap risk +
      volumeScore usd.volume_24h usd.market_cap risk +
      stabilityScore usd.percent_change_24h usd.percent_change_7d risk +
      pairsScore (t.num_market_pairs.getD 0) risk +
      ageScore (today - d) risk := by
  unfold calculate_quality_score scoreBody
  unfold mcapScore volumeScore stabilityScore pairsScore ageScore
  rw [hq]
  simp only [hmc, if_false, hd]
  ring

/-- The market-cap range upper bound is positive for every tier. -/
lemma risk_ranges_snd_pos (risk : Risk) : (0 : ℚ) < (risk_ranges risk).2 := by
  cases risk <;> norm_num [risk_ranges]

/-- Bounds of the market-cap component. -/
lemma mcapScore_bounds (risk : Risk) {mc : ℚ} (h : 0 < mc) :
    0 ≤ mcapScore mc risk ∧ mcapScore mc risk ≤ 20 := by
  constructor
  · exact le_min (by norm_num)
      (mul_nonneg (div_nonneg h.le (risk_ranges_snd_pos risk).le) (by norm_num))
  · exact min_le_left _ _

/-- The volume component is nonnegative by the `max(0, _)`. -/
lemma volumeScore_nonneg (v mc : ℚ) (risk : Risk) : 0 ≤ volumeScore v mc risk := by
  unfold volumeScore
  exact le_max_left _ _

/-- The volume component never exceeds 20. -/
lemma volumeScore_le_twenty (v mc : ℚ) (risk : Risk) : volumeScore v mc risk ≤ 20 := by
  unfold volumeScore
  dsimp only
  have hideal : (0 : ℚ) <
      ((volume_mcap_limits risk).1 + (volume_mcap_limits risk).2) / 2 := by
    cases risk <;> norm_num [volume_mcap_limits]
  have habs : (0 : ℚ) ≤
      |v / mc - ((volume_mcap_limits risk).1 + (volume_mcap_limits risk).2) / 2| /
        (((volume_mcap_limits risk).1 + (volume_mcap_limits risk).2) / 2) :=
    div_nonneg (abs_nonneg _) hideal.le
  exact max_le (by norm_num) (by linarith)

/-- Bounds of the stability component: it is 20, 10 or 5. -/
lemma stabilityScore_bounds (pc24 pc7 : ℚ) (risk : Risk) :
    0 ≤ stabilityScore pc24 pc7 risk ∧ stabilityScore pc24 pc7 risk ≤ 20 := by
  unfold stabilityScore
  dsimp only
  split_ifs <;> norm_num

/-- Bounds of the exchange-listings component. -/
lemma pairsScore_bounds (pairs : ℕ) (risk : Risk) :
    0 ≤ pairsScore pairs risk ∧ pairsScore pairs risk ≤ 20 := by
  constructor
  · refine le_min (by norm_num) (mul_nonneg (div_nonneg ?_ ?_) (by norm_num)) <;>
      positivity
  · exact min_le_left _ _

/-- Bounds of the age component for a token not listed in the future. -/
lemma ageScore_bounds (risk : Risk) {age : ℤ} (h : 0 ≤ age) :
    0 ≤ ageScore age risk ∧ ageScore age risk ≤ 20 := by
  constructor
  · have h1 : (0 : ℚ) ≤ (age : ℚ) := by exact_mod_cast h
    have h2 : (0 : ℚ) ≤ ((min_age risk : ℤ) : ℚ) := by
      cases risk <;> norm_num [min_age]
    exact le_min (by norm_num) (mul_nonneg (div_nonneg h1 h2) (by norm_num))
  · exact min_le_left _ _

/-! ### The claims -/

/-- C1: a token appears in `main`'s analyzed output only if it comes from a
fetched token that matches the selected chain, is not classified as a
stablecoin, and passes every risk-tier threshold of `initial_token_filter`:
market cap within `risk_ranges[risk]`, 24h volume at least
`min_volume[risk]`, age at least `min_age[risk]` days, and each of the
1h/24h/7d absolute percent changes within `max_volatility[risk]`. -/
theorem c1_analyzed_output_requires_chain_and_thresholds
    (today : ℤ) (tokens : List Token) (chain : Chain) (risk : Risk)
    (a : AnalyzedToken) (h : a ∈ mainAnalyzed today tokens chain risk) :
    ∃ t ∈ tokens, tokenMatchesChain chain t = true ∧ is_stablecoin t = false ∧
      ∃ usd d, t.quote = some usd ∧ t.date_added = some d ∧
        (risk_ranges risk).1 ≤ usd.market_cap ∧
        usd.market_cap ≤ (risk_ranges risk).2 ∧
        min_volume risk ≤ usd.volume_24h ∧
        min_age risk ≤ today - d ∧
        |usd.percent_change_1h.getD 0| ≤ max_volatility risk Timeframe.t1h ∧
        |usd.percent_change_24h| ≤ max_volatility risk Timeframe.t24h ∧
        |usd.percent_change_7d| ≤ max_volatility risk Timeframe.t7d := by
  unfold mainAnalyzed at h
  obtain ⟨t, htmem, hsome⟩ := mem_analyze_tokens.mp h
  obtain ⟨htok, hstab, hmatch⟩ := mem_chainFilter.mp htmem
  obtain ⟨hpass, -, -⟩ := analyzeToken_eq_some hsome
  obtain ⟨msg, hfb⟩ := initial_token_filter_fst_true hpass
  obtain ⟨usd, d, hq, hd, -, hc1, hc2, hv, hage, h1, h24, h7⟩ := filterBody_ok_true hfb
  exact ⟨t, htok, hmatch, hstab, usd, d, hq, hd, hc1, hc2, hv, hage, h1, h24, h7⟩

/-- C2: for every input token list and risk tier, the list returned by
`analyze_tokens` is sorted in descending order of the `quality_score`
field. -/
theorem c2_analyze_tokens_sorted_descending
    (today : ℤ) (tokens : List Token) (risk : Risk) :
    (analyze_tokens today tokens risk).Pairwise
      (fun a b => b.quality_score ≤ a.quality_score) := by
  have htrans : ∀ a b c : AnalyzedToken, scoreDescLe a b = true →
      scoreDescLe b c = true → scoreDescLe a c = true := by
    intro a b c h1 h2
    simp only [scoreDescLe, decide_eq_true_eq] at *
    exact le_trans h2 h1
  have htotal : ∀ a b : AnalyzedToken, (scoreDescLe a b || scoreDescLe b a) = true := by
    intro a b
    simp only [scoreDescLe, Bool.or_eq_true, decide_eq_true_eq]
    exact le_total b.quality_score a.quality_score
  have h := List.sorted_mergeSort htrans htotal
    (tokens.filterMap (fun token => analyzeToken today token risk))
  unfold analyze_tokens
  exact h.imp (fun hab => by simpa [scoreDescLe] using hab)

/-- C3: for a token whose USD quote is present, whose market cap is nonzero
(so no internal exception fires) and whose listing date parses, the quality
score is exactly the sum of the five component scores: market cap, volume to
market-cap ratio, price stability, exchange listings, age. -/
theorem c3_quality_score_is_sum_of_five_components
    (today : ℤ) (token : Token) (risk : Risk) (usd : Usd) (d : ℤ)
    (hq : token.quote = some usd) (hmc : usd.market_cap ≠ 0)
    (hd : token.date_added = some d) :
    calculate_quality_score today token risk =
      mcapScore usd.market_cap risk +
      volumeScore usd.volume_24h usd.market_cap risk +
      stabilityScore usd.percent_change_24h usd.percent_change_7d risk +
      pairsScore (token.num_market_pairs.getD 0) risk +
      ageScore (today - d) risk :=
  score_decomp today risk hq hmc hd

/-- C8: every token in the list returned by `analyze_tokens` passed
`initial_token_filter` and its recorded quality score is at least
`min_quality_score[risk]`. -/
theorem c8_output_passed_filter_and_min_score
    (today : ℤ) (tokens : List Token) (risk : Risk) (a : AnalyzedToken)
    (h : a ∈ analyze_tokens today tokens risk) :
    ∃ t ∈ tokens, (initial_token_filter today t risk).1 = true ∧
      a.quality_score = calculate_quality_score today t risk ∧
      min_quality_score risk ≤ a.quality_score := by
  obtain ⟨t, ht, hsome⟩ := mem_analyze_tokens.mp h
  obtain ⟨hpass, hmin, hqs⟩ := analyzeToken_eq_some hsome
  exact ⟨t, ht, hpass, hqs, hqs ▸ hmin⟩

/-- C9: for a token with a present USD quote, strictly positive market cap and
a listing date not in the future, the quality score lies in [0, 100] and each
of the five components is at most 20. -/
theorem c9_quality_score_between_zero_and_hundred
    (today : ℤ) (token : Token) (risk : Risk) (usd : Usd) (d : ℤ)
    (hq : token.quote = some usd) (hmc : 0 < usd.market_cap)
    (hd : token.date_added = some d) (hage : d ≤ today) :
    0 ≤ calculate_quality_score today token risk ∧
    calculate_quality_score today token risk ≤ 100 ∧
    mcapScore usd.market_cap risk ≤ 20 ∧
    volumeScore usd.volume_24h usd.market_cap risk ≤ 20 ∧
    stabilityScore usd.percent_change_24h usd.percent_change_7d risk ≤ 20 ∧
    pairsScore (token.num_market_pairs.getD 0) risk ≤ 20 ∧
    ageScore (today - d) risk ≤ 20 := by
  have h1 := mcapScore_bounds risk hmc
  have h2a := volumeScore_nonneg usd.volume_24h usd.market_cap risk
  have h2b := volumeScore_le_twenty usd.volume_24h usd.market_cap risk
  have h3 := stabilityScore_bounds usd.percent_change_24h usd.percent_change_7d risk
  have h4 := pairsScore_bounds (token.num_market_pairs.getD 0) risk
  have h5 := ageScore_bounds risk (by omega : (0 : ℤ) ≤ today - d)
  rw [score_decomp today risk hq (ne_of_gt hmc) hd]
  refine ⟨by linarith [h1.1, h3.1, h4.1, h5.1],
          by linarith [h1.2, h3.2, h4.2, h5.2],
          h1.2, h2b, h3.2, h4.2, h5.2⟩

/-- C10: a token whose name or symbol contains one of the stablecoin indicator
substrings is classified as a stablecoin by `is_stablecoin`, and `main`'s
chain-filtering loop therefore never keeps it, whatever its tags, price or
volatility. -/
theorem c10_indicator_substring_forces_stablecoin_exclusion
    (token : Token) (ind : String) (hmem : ind ∈ stable_indicators)
    (h : strContains (strLower token.name) ind = true ∨
         strContains (strLower token.symbol) ind = true) :
    is_stablecoin token = true ∧
    ∀ chain tokens, token ∉ chainFilter chain tokens := by
  have hbody : stablecoinBody token = .ok true := by
    unfold stablecoinBody
    dsimp only
    split_ifs with h1 h2 h3
    · rfl
    · rfl
    · rfl
    · exfalso
      rcases h with hc | hc
      · exact h2 (List.any_eq_true.mpr ⟨ind, hmem, hc⟩)
      · exact h3 (List.any_eq_true.mpr ⟨ind, hmem, hc⟩)
  have hstable : is_stablecoin token = true := by
    unfold is_stablecoin
    rw [hbody]
  refine ⟨hstable, fun chain tokens hmem' => ?_⟩
  obtain ⟨-, hfalse, -⟩ := mem_chainFilter.mp hmem'
  rw [hstable] at hfalse
  exact Bool.noConfusion hfalse

/-- C4: failure recovery is catch-and-log only: when the body of an operation
raises, the operation returns its fixed neutral default instead of
propagating — `get_all_tokens` the empty list, `calculate_quality_score` 0,
`initial_token_filter` `(False, an error message)`, and
`get_investment_rating` the four empty lists. The wrappers are total, so no
exception escapes. -/
theorem c4_exceptions_become_neutral_defaults
    (today : ℤ) (token : Token) (risk : Risk) (e : String) :
    get_all_tokens (.error e) = [] ∧
    (∀ err, scoreBody today token risk = .error err →
      calculate_quality_score today token risk = 0) ∧
    (∀ err, filterBody today token risk = .error err →
      initial_token_filter today token risk =
        (false, "Error in filtering: " ++ err)) ∧
    (∀ err, ratingBody today token risk = .error err →
      get_investment_rating today token risk = emptyRating) := by
  refine ⟨rfl, ?_, ?_, ?_⟩ <;> intro err h
  · unfold calculate_quality_score
    rw [h]
  · unfold initial_token_filter
    rw [h]
  · unfold get_investment_rating
    rw [h]

/-- C5: `main` is a linear pipeline fetch, filter, score, sort, report: the
stage trace of every run is one of the four in-order prefixes below, an empty
fetch stops the run at the `"Failed to fetch"` message with no later stage,
and an empty chain filter stops it at the `"No tokens found for {chain}"`
message with no later stage. -/
theorem c5_main_is_linear_pipeline
    (today : ℤ) (response : Except String (List Token))
    (chain : Chain) (risk : Risk) :
    ((mainRun today response chain risk).2 = [Stage.fetch] ∨
     (mainRun today response chain risk).2 = [Stage.fetch, Stage.filterStage] ∨
     (mainRun today response chain risk).2 =
       [Stage.fetch, Stage.filterStage, Stage.score, Stage.sortStage] ∨
     (mainRun today response chain risk).2 =
       [Stage.fetch, Stage.filterStage, Stage.score, Stage.sortStage,
        Stage.report]) ∧
    (get_all_tokens response = [] →
      mainRun today response chain risk =
        (MainResult.fetchFailed, [Stage.fetch])) ∧
    (get_all_tokens response ≠ [] →
      chainFilter chain (get_all_tokens response) = [] →
      mainRun today response chain risk =
        (MainResult.noChainTokens, [Stage.fetch, Stage.filterStage])) := by
  unfold mainRun
  dsimp only
  by_cases h1 : (get_all_tokens response).isEmpty = true
  · rw [if_pos h1]
    exact ⟨Or.inl rfl, fun _ => rfl,
      fun hne _ => absurd (List.isEmpty_iff.mp h1) hne⟩
  · rw [if_neg h1]
    by_cases h2 : (chainFilter chain (get_all_tokens response)).isEmpty = true
    · rw [if_pos h2]
      exact ⟨Or.inr (Or.inl rfl),
        fun hemp => absurd (List.isEmpty_iff.mpr hemp) h1,
        fun _ _ => rfl⟩
    · rw [if_neg h2]
      by_cases h3 : (analyze_tokens today
          (chainFilter chain (get_all_tokens response)) risk).isEmpty = true
      · rw [if_pos h3]
        exact ⟨Or.inr (Or.inr (Or.inl rfl)),
          fun hemp => absurd (List.isEmpty_iff.mpr hemp) h1,
          fun _ hf => absurd (List.isEmpty_iff.mpr hf) h2⟩
      · rw [if_neg h3]
        exact ⟨Or.inr (Or.inr (Or.inr rfl)),
          fun hemp => absurd (List.isEmpty_iff.mpr hemp) h1,
          fun _ hf => absurd (List.isEmpty_iff.mpr hf) h2⟩

/-- C6: a run's outcome is a function of the fetched data, the chain and risk
selections and the current time only; the state persisted on disk by previous
runs never influences it, so two runs on the same inputs produce identical
output. -/
theorem c6_run_independent_of_persisted_state
    (p₁ p₂ : List String) (today : ℤ) (response : Except String (List Token))
    (chain : Chain) (risk : Risk) :
    runProgram p₁ today response chain risk =
      runProgram p₂ today response chain risk := rfl

/-- C7: when `main` reaches the report stage, it prints exactly the first 10
analyzed tokens and passes the same first 10 to `log_recommendations`, so at
most 10 are reported even when more tokens pass all criteria. -/
theorem c7_report_is_first_ten
    (today : ℤ) (response : Except String (List Token)) (chain : Chain)
    (risk : Risk) (p l : List AnalyzedToken)
    (h : (mainRun today response chain risk).1 = MainResult.report p l) :
    p = (mainAnalyzed today (get_all_tokens response) chain risk).take 10 ∧
    l = (mainAnalyzed today (get_all_tokens response) chain risk).take 10 ∧
    p.length ≤ 10 ∧ l.length ≤ 10 := by
  unfold mainRun at h
  dsimp only at h
  split at h
  · exact absurd h (by simp)
  · split at h
    · exact absurd h (by simp)
    · split at h
      · exact absurd h (by simp)
      · injection h with hp hl
        unfold mainAnalyzed
        refine ⟨hp.symm, hl.symm, ?_, ?_⟩
        · rw [← hp]
          simp
        · rw [← hl]
          simp

/-! ### Evaluation lemmas for the fixtures -/

/-- `wTok` is not classified as a stablecoin: no tag, no indicator substring,
and its price 100 is far from the peg. -/
lemma is_stablecoin_wTok : is_stablecoin wTok = false := by
  have h1 : (["stablecoin", "stablecoins"].any fun tag =>
      (wTok.tags.map strLower).contains tag) = false := rfl
  have h2 : (stable_indicators.any fun ind =>
      strContains (strLower wTok.name) ind) = false := rfl
  have h3 : (stable_indicators.any fun ind =>
      strContains (strLower wTok.symbol) ind) = false := rfl
  unfold is_stablecoin stablecoinBody
  dsimp only
  rw [h1, h2, h3]
  norm_num [wTok, wUsd]

/-- `wTok` matches Ethereum through its native symbol. -/
lemma tokenMatchesChain_wTok : tokenMatchesChain Chain.ethereum wTok = true := rfl

/-- The chain filter keeps `wTok`. -/
lemma chainFilter_wTok : chainFilter Chain.ethereum [wTok] = [wTok] := by
  simp [chainFilter, List.filter_cons, is_stablecoin_wTok, tokenMatchesChain_wTok]

/-- `wTok` passes every check of the initial filter at high risk. -/
lemma filterBody_wTok :
    filterBody 1000 wTok Risk.high = .ok (true, "Passed initial filter") := by
  unfold filterBody
  norm_num [wTok, wUsd, risk_ranges, min_volume, min_age, max_volatility,
    strLower]

/-- The quality score of `wTok` at high risk: 8 + 20 + 20 + 20 + 20. -/
lemma quality_score_wTok : calculate_quality_score 1000 wTok Risk.high = 88 := by
  unfold calculate_quality_score scoreBody
  norm_num [wTok, wUsd, risk_ranges, volume_mcap_limits, max_volatility,
    min_pairs, min_age, min_def, max_def]

/-- The investment rating of `wTok`. -/
lemma rating_wTok : get_investment_rating 1000 wTok Risk.high =
    ⟨["Strong market position", "Well-established", "Healthy trading volume"],
     ["Limited clear utility cases"], ["Positive 7-day trend"], []⟩ := by
  unfold get_investment_rating ratingBody
  norm_num [wTok, wUsd, volume_mcap_limits, utility_tags, strLower]

/-- Building the analyzed record for `wTok` with quality score 88 gives
`wAnalyzed`. -/
lemma buildBody_wTok : buildBody 1000 wTok Risk.high 88 = .ok wAnalyzed := by
  unfold buildBody
  simp only [rating_wTok]
  norm_num [wTok, wUsd, wAnalyzed]

/-- One loop iteration of `analyze_tokens` keeps `wTok` and produces
`wAnalyzed`. -/
lemma analyzeToken_wTok : analyzeToken 1000 wTok Risk.high = some wAnalyzed := by
  have hfr : initial_token_filter 1000 wTok Risk.high =
      (true, "Passed initial filter") := by
    unfold initial_token_filter
    rw [filterBody_wTok]
  unfold analyzeToken
  norm_num [hfr, quality_score_wTok, buildBody_wTok, min_quality_score]

/-- The analyzed list for `[wTok]` at high risk. -/
lemma analyze_tokens_wTok :
    analyze_tokens 1000 [wTok] Risk.high = [wAnalyzed] := by
  unfold analyze_tokens
  simp [List.filterMap_cons, analyzeToken_wTok, List.mergeSort_singleton]

/-- The full analyzed shortlist of `main` for `[wTok]`. -/
lemma mainAnalyzed_wTok :
    mainAnalyzed 1000 [wTok] Chain.ethereum Risk.high = [wAnalyzed] := by
  unfold mainAnalyzed
  rw [chainFilter_wTok, analyze_tokens_wTok]

/-- The full run on `[wTok]` reaches the report stage. -/
lemma mainRun_wTok : mainRun 1000 (.ok [wTok]) Chain.ethereum Risk.high =
    (MainResult.report [wAnalyzed] [wAnalyzed],
     [Stage.fetch, Stage.filterStage, Stage.score, Stage.sortStage,
      Stage.report]) := by
  unfold mainRun
  simp only [show get_all_tokens (.ok [wTok]) = [wTok] from rfl,
    chainFilter_wTok, analyze_tokens_wTok]
  simp

/-- `bTok` is dropped by the chain filter. -/
lemma chainFilter_bTok : chainFilter Chain.ethereum [bTok] = [] := rfl

/-! ### Witnesses -/

/-- Witness for C1: the pipeline output for `[wTok]` is nonempty and the
theorem applies to its member. -/
theorem c1_witness :
    ∃ t ∈ [wTok], tokenMatchesChain Chain.ethereum t = true ∧
      is_stablecoin t = false ∧
      ∃ usd d, t.quote = some usd ∧ t.date_added = some d ∧
        (risk_ranges Risk.high).1 ≤ usd.market_cap ∧
        usd.market_cap ≤ (risk_ranges Risk.high).2 ∧
        min_volume Risk.high ≤ usd.volume_24h ∧
        min_age Risk.high ≤ 1000 - d ∧
        |usd.percent_change_1h.getD 0| ≤ max_volatility Risk.high Timeframe.t1h ∧
        |usd.percent_change_24h| ≤ max_volatility Risk.high Timeframe.t24h ∧
        |usd.percent_change_7d| ≤ max_volatility Risk.high Timeframe.t7d := by
  apply c1_analyzed_output_requires_chain_and_thresholds 1000 [wTok]
    Chain.ethereum Risk.high wAnalyzed
  rw [mainAnalyzed_wTok]
  exact List.mem_singleton_self wAnalyzed

/-- Witness for C3 at the concrete token `wTok`. -/
theorem c3_witness :
    calculate_quality_score 1000 wTok Risk.high =
      mcapScore wUsd.market_cap Risk.high +
      volumeScore wUsd.volume_24h wUsd.market_cap Risk.high +
      stabilityScore wUsd.percent_change_24h wUsd.percent_change_7d Risk.high +
      pairsScore (wTok.num_market_pairs.getD 0) Risk.high +
      ageScore (1000 - 0) Risk.high :=
  c3_quality_score_is_sum_of_five_components 1000 wTok Risk.high wUsd 0
    rfl (by norm_num [wUsd]) rfl

/-- Witness for C4 at the quote-less token `bTok`, whose score, filter and
rating bodies all raise `KeyError`. -/
theorem c4_witness :
    get_all_tokens (.error "ConnectionError") = [] ∧
    calculate_quality_score 1000 bTok Risk.low = 0 ∧
    initial_token_filter 1000 bTok Risk.low =
      (false, "Error in filtering: " ++ "KeyError: USD quote") ∧
    get_investment_rating 1000 bTok Risk.low = emptyRating := by
  obtain ⟨h1, h2, h3, h4⟩ :=
    c4_exceptions_become_neutral_defaults 1000 bTok Risk.low "ConnectionError"
  exact ⟨h1, h2 "KeyError: USD quote" rfl, h3 "KeyError: USD quote" rfl,
    h4 "KeyError: USD quote" rfl⟩

/-- Witness for C5: a failed fetch stops at the fetch stage; a fetch whose
tokens all miss the chain stops at the filter stage. -/
theorem c5_witness :
    mainRun 1000 (.error "ConnectionError") Chain.ethereum Risk.low =
      (MainResult.fetchFailed, [Stage.fetch]) ∧
    mainRun 1000 (.ok [bTok]) Chain.ethereum Risk.low =
      (MainResult.noChainTokens, [Stage.fetch, Stage.filterStage]) := by
  refine ⟨(c5_main_is_linear_pipeline 1000 (.error "ConnectionError")
    Chain.ethereum Risk.low).2.1 rfl, ?_⟩
  exact (c5_main_is_linear_pipeline 1000 (.ok [bTok]) Chain.ethereum
    Risk.low).2.2 (by simp [get_all_tokens]) chainFilter_bTok

/-- Witness for C7: the run on `[wTok]` reaches the report stage and reports
the first ten analyzed tokens. -/
theorem c7_witness :
    ((mainAnalyzed 1000 [wTok] Chain.ethereum Risk.high).take 10).length ≤ 10 ∧
    (mainRun 1000 (.ok [wTok]) Chain.ethereum Risk.high).1 =
      MainResult.report
        ((mainAnalyzed 1000 [wTok] Chain.ethereum Risk.high).take 10)
        ((mainAnalyzed 1000 [wTok] Chain.ethereum Risk.high).take 10) := by
  have h : (mainRun 1000 (.ok [wTok]) Chain.ethereum Risk.high).1 =
      MainResult.report
        ((mainAnalyzed 1000 [wTok] Chain.ethereum Risk.high).take 10)
        ((mainAnalyzed 1000 [wTok] Chain.ethereum Risk.high).take 10) := by
    rw [mainRun_wTok, mainAnalyzed_wTok]
    simp
  exact ⟨(c7_report_is_first_ten 1000 (.ok [wTok]) Chain.ethereum Risk.high
    _ _ h).2.2.1, h⟩

/-- Witness for C8: the analyzed output for `[wTok]` satisfies both
acceptance conditions. -/
theorem c8_witness :
    ∃ t ∈ [wTok], (initial_token_filter 1000 t Risk.high).1 = true ∧
      wAnalyzed.quality_score = calculate_quality_score 1000 t Risk.high ∧
      min_quality_score Risk.high ≤ wAnalyzed.quality_score := by
  apply c8_output_passed_filter_and_min_score 1000 [wTok] Risk.high wAnalyzed
  rw [analyze_tokens_wTok]
  exact List.mem_singleton_self wAnalyzed

/-- Witness for C9 at the concrete token `wTok`. -/
theorem c9_witness :
    0 ≤ calculate_quality_score 1000 wTok Risk.high ∧
    calculate_quality_score 1000 wTok Risk.high ≤ 100 ∧
    mcapScore wUsd.market_cap Risk.high ≤ 20 ∧
    volumeScore wUsd.volume_24h wUsd.market_cap Risk.high ≤ 20 ∧
    stabilityScore wUsd.percent_change_24h wUsd.percent_change_7d Risk.high ≤ 20 ∧
    pairsScore (wTok.num_market_pairs.getD 0) Risk.high ≤ 20 ∧
    ageScore (1000 - 0) Risk.high ≤ 20 :=
  c9_quality_score_between_zero_and_hundred 1000 wTok Risk.high wUsd 0
    rfl (by norm_num [wUsd]) rfl (by norm_num)

/-- Witness for C10 at the token named `"MoonUSD"`. -/
theorem c10_witness :
    is_stablecoin sTok = true ∧ sTok ∉ chainFilter Chain.ethereum [sTok] := by
  have h := c10_indicator_substring_forces_stablecoin_exclusion sTok "usd"
    (by simp [stable_indicators]) (Or.inl rfl)
  exact ⟨h.1, h.2 Chain.ethereum [sTok]⟩

end TokenPicker
